import Mathlib

/-!
# Verification of `gasplanner` (`src/rock_bottom.rs`)

Shallow embedding of the rock-bottom gas planner. Rust `f64` values are
modelled as exact rationals (`ℚ`); decimal literals in the source are the
corresponding exact rationals, and "within floating-point tolerance" in the
specification becomes exact equality over `ℚ`. Rust `u16` is modelled as `ℕ`
(the width plays no role in the arithmetic). Fallible operations returning
`Option<T>` become `Option`; the `Result<_, conv::PosOverflow<usize>>` of
`divide_gas_among` becomes `Except ConvError _`; a Rust `panic!` (from
`.expect(...)`) is a distinct outcome of the top-level computation.
-/

set_option autoImplicit false

namespace GasPlanner

/-- `const SAFETY_STOP_DEPTH: f64 = 4.5;` -/
def SAFETY_STOP_DEPTH : ℚ := 4.5

/-- `const ASCENT_RATE: f64 = 9.14;` -/
def ASCENT_RATE : ℚ := 9.14

/-- `const SAFETY_STOP_MINUTES: f64 = 3.0;` -/
def SAFETY_STOP_MINUTES : ℚ := 3.0

/-- The `Tank` struct: one cylinder (`service_pressure: u16`, the rest `f64`). -/
structure Tank where
  service_pressure : ℕ
  capacity_cuft : ℚ
  gauge_pressure : ℚ
  f_o2 : ℚ
  f_n2 : ℚ
deriving DecidableEq, Repr

/-- The `Kit` struct: a sequence of tanks. -/
structure Kit where
  tanks : List Tank
deriving DecidableEq, Repr

/-- The `Diver` struct. -/
structure Diver where
  name : String
  rmv : ℚ
  kit : Kit

/-- Rust's `f64::try_from(x: u16)`: the blanket `TryFrom` impl over
`From<u16> for f64`, whose error type is `Infallible` — the conversion always
succeeds. -/
def f64_try_from_u16 (n : ℕ) : Option ℚ :=
  some (n : ℚ)

/-- The `conv` crate's `f64::value_from(x: usize)` (`ValueFrom`): an exact
value conversion that fails with `PosOverflow` when the integer exceeds the
largest range of integers `f64` represents exactly (`2^53`). -/
def f64_value_from_usize (n : ℕ) : Option ℚ :=
  if n ≤ 2 ^ 53 then some (n : ℚ) else none

/-- `fn atmospheres(depth_m: f64) -> f64 { 1.0 + depth_m / 10.0 }` -/
def atmospheres (depth_m : ℚ) : ℚ :=
  1.0 + depth_m / 10.0

/-- `Tank::tank_factor`: `f64::try_from(self.service_pressure).and_then(|sp| Ok(self.capacity_cuft / sp)).ok()`. -/
def Tank.tank_factor (t : Tank) : Option ℚ :=
  (f64_try_from_u16 t.service_pressure).bind (fun sp => some (t.capacity_cuft / sp))

/-- `Tank::gas_volume_cuft`: `self.tank_factor().and_then(|tank_factor| Some(self.gauge_pressure * tank_factor))`. -/
def Tank.gas_volume_cuft (t : Tank) : Option ℚ :=
  t.tank_factor.bind (fun tank_factor => some (t.gauge_pressure * tank_factor))

/-- `Tank::pO2`: `atmospheres(depth_m) * self.f_o2`. -/
def Tank.pO2 (t : Tank) (depth_m : ℚ) : ℚ :=
  atmospheres depth_m * t.f_o2

/-- `Tank::breathable_at`: `self.pO2(depth_m) <= 1.4`. -/
def Tank.breathable_at (t : Tank) (depth_m : ℚ) : Bool :=
  decide (t.pO2 depth_m ≤ 1.4)

/-- `Tank::with_volume`: a new `Tank` with `gauge_pressure = volume / tank_factor`,
all other fields copied. -/
def Tank.with_volume (t : Tank) (volume : ℚ) : Option Tank :=
  t.tank_factor.bind (fun tank_factor => some
    { service_pressure := t.service_pressure
      capacity_cuft := t.capacity_cuft
      gauge_pressure := volume / tank_factor
      f_o2 := t.f_o2
      f_n2 := t.f_n2 })

/-- `Tank::add_volume`: `self.gas_volume_cuft().and_then(|gv| self.with_volume(gv + volume))`. -/
def Tank.add_volume (t : Tank) (volume : ℚ) : Option Tank :=
  t.gas_volume_cuft.bind (fun gv => t.with_volume (gv + volume))

/-- Error type of `divide_gas_among`: `conv::PosOverflow<usize>`. -/
inductive ConvError where
  | posOverflow
deriving DecidableEq, Repr

/-- `fn divide_gas_among<F>(tanks, needed_gas, volume_allocator) -> Result<Option<Vec<Tank>>, conv::PosOverflow<usize>>`:
convert the tank count to `f64`, divide the needed gas evenly, and apply the
allocator to every tank, collecting `Option`s (`mapM` is Rust's
`map(...).collect::<Option<Vec<_>>>()`). -/
def divide_gas_among (tanks : List Tank) (needed_gas : ℚ)
    (volume_allocator : Tank → ℚ → Option Tank) :
    Except ConvError (Option (List Tank)) :=
  match f64_value_from_usize tanks.length with
  | none => .error .posOverflow
  | some tank_count =>
      let gas_per_ascent_tank := needed_gas / tank_count
      .ok (tanks.mapM (fun t => volume_allocator t gas_per_ascent_tank))

/-- The tanks breathable at `depth_m` (the `bottom_tanks` filter in
`rock_bottom_pressure_rec`). -/
def bottomTanks (d : Diver) (depth_m : ℚ) : List Tank :=
  d.kit.tanks.filter (fun t => t.breathable_at depth_m)

/-- The tanks breathable at `SAFETY_STOP_DEPTH` but not at `depth_m` (the
`stop_tanks` filter in `rock_bottom_pressure_rec`). -/
def stopTanks (d : Diver) (depth_m : ℚ) : List Tank :=
  d.kit.tanks.filter (fun t =>
    t.breathable_at SAFETY_STOP_DEPTH && !t.breathable_at depth_m)

/-- Outcome of `Diver::rock_bottom_pressure_rec`: the Rust function returns
`Result<Vec<Tank>, &'static str>` but can also panic through the two
`.expect(...)` calls, so the embedding has three outcomes. -/
inductive RBResult where
  | panicked (msg : String)
  | err (msg : String)
  | ok (tanks : List Tank)
deriving DecidableEq, Repr

/-- `Diver::rock_bottom_pressure_rec(depth_m)`: compute the gas budget,
partition the kit into bottom and stop tanks, allocate `problem_gas +
ascent_gas` across the bottom tanks with `with_volume` (the surrounding
`.expect` turns a conversion `Err` into a panic), append the stop tanks, and
allocate `stop_gas` across all tanks with `add_volume` (again under
`.expect`). -/
def Diver.rock_bottom_pressure_rec (d : Diver) (depth_m : ℚ) : RBResult :=
  let ascent_ata := atmospheres ((depth_m - SAFETY_STOP_DEPTH) / 2.0)
  let bottom_ata := atmospheres depth_m
  let ascent_minutes := depth_m / ASCENT_RATE
  let problem_gas := d.rmv * 2.0 * bottom_ata * 4.0
  let ascent_gas := ascent_ata * ascent_minutes * d.rmv * 2.0
  let stop_gas := atmospheres SAFETY_STOP_DEPTH * SAFETY_STOP_MINUTES * d.rmv * 2.0
  let bottom_tanks := bottomTanks d depth_m
  let stop_tanks := stopTanks d depth_m
  match divide_gas_among bottom_tanks (problem_gas + ascent_gas) Tank.with_volume with
  | .error _ => .panicked "Failed to allocate gas to tanks."
  | .ok bottom_tanks =>
      match bottom_tanks with
      | none => .err "No valid bottom tanks"
      | some bt =>
          let all_tanks := bt ++ stop_tanks
          match divide_gas_among all_tanks stop_gas Tank.add_volume with
          | .error _ => .panicked "OOF"
          | .ok none => .err "BIG OOF."
          | .ok (some t) => .ok t

/-! ## Total-function views of the tank operations

`f64_try_from_u16` always succeeds, so every `Option`-valued tank operation is
`some` of a total function; these views make the allocator's behaviour
explicit. -/

/-- The value `tank_factor` always returns. -/
def tankFactorVal (t : Tank) : ℚ :=
  t.capacity_cuft / (t.service_pressure : ℚ)

/-- The value `gas_volume_cuft` always returns. -/
def gasVolumeVal (t : Tank) : ℚ :=
  t.gauge_pressure * tankFactorVal t

/-- The tank `with_volume` always returns. -/
def withVolumeFn (t : Tank) (volume : ℚ) : Tank :=
  { service_pressure := t.service_pressure
    capacity_cuft := t.capacity_cuft
    gauge_pressure := volume / tankFactorVal t
    f_o2 := t.f_o2
    f_n2 := t.f_n2 }

/-- The tank `add_volume` always returns. -/
def addVolumeFn (t : Tank) (volume : ℚ) : Tank :=
  withVolumeFn t (gasVolumeVal t + volume)

/-- The tank list `rock_bottom_pressure_rec` returns on its success path:
bottom tanks each set (`with_volume`) to an even share of `problem_gas +
ascent_gas`, stop tanks appended, then every tank topped up (`add_volume`)
with an even share of `stop_gas`. -/
def rockBottomResult (d : Diver) (depth_m : ℚ) : List Tank :=
  let bt := (bottomTanks d depth_m).map (fun t =>
    withVolumeFn t
      ((d.rmv * 2.0 * atmospheres depth_m * 4.0 +
          atmospheres ((depth_m - SAFETY_STOP_DEPTH) / 2.0) * (depth_m / ASCENT_RATE) * d.rmv * 2.0) /
        ((bottomTanks d depth_m).length : ℚ)))
  let all_tanks := bt ++ stopTanks d depth_m
  all_tanks.map (fun t =>
    addVolumeFn t
      ((atmospheres SAFETY_STOP_DEPTH * SAFETY_STOP_MINUTES * d.rmv * 2.0) /
        ((all_tanks.length : ℚ))))

/-- The tank of the source's `test_tank_volume` / `test_rock_bottom` tests. -/
def tank1 : Tank :=
  { service_pressure := 3442
    capacity_cuft := 101.3
    gauge_pressure := 750.0
    f_o2 := 0.21
    f_n2 := 0.79 }

/-- The 50% oxygen tank of the source's `test_tank_breathable` test. -/
def t50 : Tank :=
  { service_pressure := 3442
    capacity_cuft := 101.3
    gauge_pressure := 3200.0
    f_o2 := 0.5
    f_n2 := 0.5 }

/-- The diver of the source's `test_rock_bottom` test. -/
def tyler : Diver :=
  { name := "Tyler"
    rmv := 0.7
    kit := { tanks := [tank1] } }

/-- A diver whose kit has more tanks than `f64` can count exactly. -/
def heavyDiver : Diver :=
  { name := "heavy"
    rmv := 0.7
    kit := { tanks := List.replicate (2 ^ 53 + 1) tank1 } }

/-- The single tank of the result of the concrete `test_rock_bottom`
scenario: `tank1` after receiving the bottom+ascent allocation
(`with_volume`) and the stop allocation (`add_volume`). -/
def resultTank : Tank :=
  { service_pressure := 3442
    capacity_cuft := 101.3
    gauge_pressure := 3062937703 / 2314705
    f_o2 := 0.21
    f_n2 := 0.79 }

/-! ## Helper lemmas -/

theorem tank_factor_eq (t : Tank) : t.tank_factor = some (tankFactorVal t) := rfl

theorem gas_volume_eq (t : Tank) : t.gas_volume_cuft = some (gasVolumeVal t) := rfl

theorem with_volume_eq (t : Tank) (v : ℚ) : t.with_volume v = some (withVolumeFn t v) := rfl

theorem add_volume_eq (t : Tank) (v : ℚ) : t.add_volume v = some (addVolumeFn t v) := rfl

/-- Auxiliary: the accumulator-passing loop of `List.mapM` over `Option`, when
the function always succeeds. -/
theorem mapM_loop_total (f : Tank → Option Tank) (g : Tank → Tank)
    (hf : ∀ t, f t = some (g t)) :
    ∀ (l : List Tank) (acc : List Tank),
      List.mapM.loop f l acc = some (acc.reverse ++ l.map g) := by
  intro l
  induction l with
  | nil => intro acc; simp [List.mapM.loop]
  | cons a l ih =>
      intro acc
      simp [List.mapM.loop, hf, ih]

/-- `mapM` over `Option` with an allocator that always succeeds is `some` of
the plain `map`. -/
theorem mapM_total (l : List Tank) (f : Tank → Option Tank) (g : Tank → Tank)
    (hf : ∀ t, f t = some (g t)) : l.mapM f = some (l.map g) := by
  have h := mapM_loop_total f g hf l []
  simpa [List.mapM] using h

/-- When the tank count is within the exact `f64` range and the allocator is
total, `divide_gas_among` succeeds and gives every tank the even share
`needed_gas / tank_count`. -/
theorem divide_gas_among_total (tanks : List Tank) (needed_gas : ℚ)
    (f : Tank → ℚ → Option Tank) (g : Tank → ℚ → Tank)
    (hf : ∀ t v, f t v = some (g t v))
    (hlen : tanks.length ≤ 2 ^ 53) :
    divide_gas_among tanks needed_gas f
      = .ok (some (tanks.map (fun t => g t (needed_gas / (tanks.length : ℚ))))) := by
  have h1 : f64_value_from_usize tanks.length = some (tanks.length : ℚ) := by
    unfold f64_value_from_usize
    rw [if_pos hlen]
  unfold divide_gas_among
  rw [h1]
  exact congrArg Except.ok (mapM_total tanks _ _ (fun t => hf t _))

/-- When the tank count exceeds the exact `f64` range, `divide_gas_among`
returns the `PosOverflow` conversion error. -/
theorem divide_gas_among_overflow (tanks : List Tank) (needed_gas : ℚ)
    (f : Tank → ℚ → Option Tank) (hlen : 2 ^ 53 < tanks.length) :
    divide_gas_among tanks needed_gas f = .error .posOverflow := by
  have h1 : f64_value_from_usize tanks.length = none := by
    unfold f64_value_from_usize
    rw [if_neg (Nat.not_le_of_lt hlen)]
  unfold divide_gas_among
  rw [h1]

/-- For a tank with nonzero service pressure and capacity (the data-model
invariants), setting a volume then reading it back returns that volume. -/
theorem gasVolumeVal_withVolumeFn (t : Tank) (v : ℚ)
    (hsp : t.service_pressure ≠ 0) (hcap : t.capacity_cuft ≠ 0) :
    gasVolumeVal (withVolumeFn t v) = v := by
  have htf : tankFactorVal t ≠ 0 :=
    div_ne_zero hcap (Nat.cast_ne_zero.mpr hsp)
  unfold gasVolumeVal withVolumeFn tankFactorVal at *
  exact div_mul_cancel₀ v htf

/-- Whenever the two tank counts stay within the exact `f64` range,
`rock_bottom_pressure_rec` returns `Ok` with the allocation of
`rockBottomResult`: no panic and no error, since the per-tank operations are
infallible. -/
theorem rock_bottom_eq_result (d : Diver) (depth_m : ℚ)
    (h2 : (bottomTanks d depth_m).length + (stopTanks d depth_m).length ≤ 2 ^ 53) :
    d.rock_bottom_pressure_rec depth_m = .ok (rockBottomResult d depth_m) := by
  have h1 : (bottomTanks d depth_m).length ≤ 2 ^ 53 :=
    le_trans (Nat.le_add_right _ _) h2
  have heq1 : ∀ gas : ℚ,
      divide_gas_among (bottomTanks d depth_m) gas Tank.with_volume
        = .ok (some ((bottomTanks d depth_m).map (fun t =>
            withVolumeFn t (gas / ((bottomTanks d depth_m).length : ℚ))))) :=
    fun gas => divide_gas_among_total _ gas _ _ (fun t v => with_volume_eq t v) h1
  have heq2 : ∀ gas1 gas : ℚ,
      divide_gas_among
        ((bottomTanks d depth_m).map (fun t => withVolumeFn t gas1) ++ stopTanks d depth_m)
        gas Tank.add_volume
        = .ok (some
            (((bottomTanks d depth_m).map (fun t => withVolumeFn t gas1) ++ stopTanks d depth_m).map
              (fun t => addVolumeFn t
                (gas / ((((bottomTanks d depth_m).map (fun t => withVolumeFn t gas1) ++
                    stopTanks d depth_m).length : ℕ) : ℚ))))) := by
    intro gas1 gas
    refine divide_gas_among_total _ gas _ _ (fun t v => add_volume_eq t v) ?_
    simpa using h2
  simp only [Diver.rock_bottom_pressure_rec, rockBottomResult, heq1, heq2]

/-- When the bottom-tank count exceeds the exact `f64` range, the first
`divide_gas_among` call fails and its `.expect` makes
`rock_bottom_pressure_rec` panic. -/
theorem rock_bottom_overflow_panics (d : Diver) (depth_m : ℚ)
    (hlen : 2 ^ 53 < (bottomTanks d depth_m).length) :
    d.rock_bottom_pressure_rec depth_m
      = .panicked "Failed to allocate gas to tanks." := by
  have hov : ∀ gas : ℚ,
      divide_gas_among (bottomTanks d depth_m) gas Tank.with_volume
        = .error .posOverflow :=
    fun gas => divide_gas_among_overflow _ gas _ hlen
  simp only [Diver.rock_bottom_pressure_rec, hov]

/-- `tank1` (21% oxygen) is breathable at 30 m: pO2 there is 0.84 ata. -/
theorem tank1_breathable_30 : tank1.breathable_at 30.0 = true := by
  norm_num [Tank.breathable_at, Tank.pO2, atmospheres, tank1]

/-- The bottom-tank partition of the test diver at 30 m is the whole kit. -/
theorem bottomTanks_tyler : bottomTanks tyler 30.0 = [tank1] := by
  simp [bottomTanks, tyler, List.filter, tank1_breathable_30]

/-- The stop-tank partition of the test diver at 30 m is empty. -/
theorem stopTanks_tyler : stopTanks tyler 30.0 = [] := by
  simp [stopTanks, tyler, List.filter, tank1_breathable_30]

/-- The test diver's tank counts are within the `f64` conversion range. -/
theorem tyler_counts :
    (bottomTanks tyler 30.0).length + (stopTanks tyler 30.0).length ≤ 2 ^ 53 := by
  rw [bottomTanks_tyler, stopTanks_tyler]
  norm_num

/-- Evaluating the success-path allocation on the concrete test scenario. -/
theorem rockBottomResult_tyler : rockBottomResult tyler 30.0 = [resultTank] := by
  simp only [rockBottomResult, bottomTanks_tyler, stopTanks_tyler]
  norm_num [withVolumeFn, addVolumeFn, gasVolumeVal, tankFactorVal, tank1, resultTank, tyler,
    atmospheres, SAFETY_STOP_DEPTH, ASCENT_RATE, SAFETY_STOP_MINUTES]

/-! ## Claims -/

/-- C1: contrary to the specified behaviour, a diver with an empty tank
collection does not make `rock_bottom_pressure_rec` fail with an infeasible
allocation: both `divide_gas_among` calls map over the empty list and
collect `Some([])`, so the function returns a successful result holding an
empty tank sequence. -/
theorem c1_empty_kit_returns_empty_success :
    (Diver.mk "empty" 0.7 (Kit.mk [])).rock_bottom_pressure_rec 30.0 = .ok [] := by
  have hb : bottomTanks (Diver.mk "empty" 0.7 (Kit.mk [])) 30.0 = [] := rfl
  have hs : stopTanks (Diver.mk "empty" 0.7 (Kit.mk [])) 30.0 = [] := rfl
  rw [rock_bottom_eq_result _ _ (by rw [hb, hs]; norm_num)]
  simp [rockBottomResult, hb, hs]

/-- C2 counterexample: the failure of an internal fallible step is not always
propagated as the function's `Result`: when the tank-count conversion in
`divide_gas_among` fails (kit larger than the exact `f64` integer range),
`rock_bottom_pressure_rec` panics through `.expect("Failed to allocate gas to
tanks.")` instead of returning an error value. -/
theorem c2_counterexample_overflow :
    heavyDiver.rock_bottom_pressure_rec 30.0
      = .panicked "Failed to allocate gas to tanks." := by
  have hb : bottomTanks heavyDiver 30.0 = List.replicate (2 ^ 53 + 1) tank1 := by
    rw [bottomTanks]
    show (List.replicate (2 ^ 53 + 1) tank1).filter (fun t => t.breathable_at 30.0) = _
    rw [List.filter_replicate, if_pos tank1_breathable_30]
  apply rock_bottom_overflow_panics
  rw [hb, List.length_replicate]
  exact lt_add_one _

/-- C2 (amended): the per-tank fallible steps (`tank_factor`, `with_volume`,
`add_volume`) never fail, so whenever the tank counts are within the exact
`f64` conversion range the function returns `Ok` with no panic and no local
recovery; a tank-count conversion failure in `divide_gas_among`, however, is
turned into a panic by `.expect` rather than being propagated in the
`Result`. -/
theorem c2_error_propagation_amended (d : Diver) (depth_m : ℚ) :
    ((bottomTanks d depth_m).length + (stopTanks d depth_m).length ≤ 2 ^ 53 →
        ∃ ts : List Tank, d.rock_bottom_pressure_rec depth_m = .ok ts) ∧
    (2 ^ 53 < (bottomTanks d depth_m).length →
        d.rock_bottom_pressure_rec depth_m
          = .panicked "Failed to allocate gas to tanks.") := by
  constructor
  · intro h2
    exact ⟨_, rock_bottom_eq_result d depth_m h2⟩
  · intro hlen
    exact rock_bottom_overflow_panics d depth_m hlen

/-- C2 witness: the amended propagation statement applied to the source's
concrete test diver. -/
theorem c2_error_propagation_witness :
    ∃ ts : List Tank, tyler.rock_bottom_pressure_rec 30.0 = .ok ts :=
  (c2_error_propagation_amended tyler 30.0).1 tyler_counts

/-- C3: the concrete scenario — rmv 0.7, single 3442 psi / 101.3 cuft tank of
21% oxygen at 750 psi, depth 30 m — succeeds with exactly one tank in the
result; the tank is a bottom tank and the stop-tank set is empty. -/
theorem c3_concrete_scenario_single_tank :
    tyler.rock_bottom_pressure_rec 30.0 = .ok [resultTank] ∧
    bottomTanks tyler 30.0 = [tank1] ∧
    stopTanks tyler 30.0 = [] := by
  refine ⟨?_, bottomTanks_tyler, stopTanks_tyler⟩
  rw [rock_bottom_eq_result tyler 30.0 tyler_counts, rockBottomResult_tyler]

/-- C4: for any tank satisfying the data-model invariants (positive service
pressure, nonzero capacity), `with_volume` succeeds and the resulting tank's
`gas_volume_cuft` is exactly the requested volume. -/
theorem c4_with_volume_roundtrip (t : Tank) (v : ℚ)
    (hsp : t.service_pressure ≠ 0) (hcap : t.capacity_cuft ≠ 0) :
    ∃ t' : Tank, t.with_volume v = some t' ∧ t'.gas_volume_cuft = some v :=
  ⟨withVolumeFn t v, with_volume_eq t v, by
    rw [gas_volume_eq]
    exact congrArg some (gasVolumeVal_withVolumeFn t v hsp hcap)⟩

/-- C4 witness: the round trip at the concrete test tank and volume 5. -/
theorem c4_with_volume_roundtrip_witness :
    ∃ t' : Tank, tank1.with_volume 5 = some t' ∧ t'.gas_volume_cuft = some 5 :=
  c4_with_volume_roundtrip tank1 5 (by norm_num [tank1]) (by norm_num [tank1])

/-- C5: for any tank satisfying the data-model invariants, `add_volume`
succeeds and the resulting tank's `gas_volume_cuft` is exactly the original
volume plus the delta. -/
theorem c5_add_volume_additive (t : Tank) (dv : ℚ)
    (hsp : t.service_pressure ≠ 0) (hcap : t.capacity_cuft ≠ 0) :
    ∃ (gv : ℚ) (t' : Tank), t.gas_volume_cuft = some gv ∧
      t.add_volume dv = some t' ∧ t'.gas_volume_cuft = some (gv + dv) :=
  ⟨gasVolumeVal t, addVolumeFn t dv, gas_volume_eq t, add_volume_eq t dv, by
    rw [gas_volume_eq]
    unfold addVolumeFn
    exact congrArg some (gasVolumeVal_withVolumeFn t _ hsp hcap)⟩

/-- C5 witness: additivity at the concrete test tank and delta 2. -/
theorem c5_add_volume_additive_witness :
    ∃ (gv : ℚ) (t' : Tank), tank1.gas_volume_cuft = some gv ∧
      tank1.add_volume 2 = some t' ∧ t'.gas_volume_cuft = some (gv + 2) :=
  c5_add_volume_additive tank1 2 (by norm_num [tank1]) (by norm_num [tank1])

/-- C6: dividing a total volume among a non-empty list of valid tanks with
`divide_gas_among` and `with_volume` gives every tank the even by-count share
`total / count`, and the allocated gas volumes sum back to the total. -/
theorem c6_allocation_conservation (tanks : List Tank) (total : ℚ)
    (hne : tanks ≠ []) (hlen : tanks.length ≤ 2 ^ 53)
    (hvalid : ∀ t ∈ tanks, t.service_pressure ≠ 0 ∧ t.capacity_cuft ≠ 0) :
    ∃ ts : List Tank,
      divide_gas_among tanks total Tank.with_volume = .ok (some ts) ∧
      (∀ t' ∈ ts, t'.gas_volume_cuft = some (total / (tanks.length : ℚ))) ∧
      (ts.map gasVolumeVal).sum = total := by
  refine ⟨_, divide_gas_among_total tanks total _ _ (fun t v => with_volume_eq t v) hlen,
    ?_, ?_⟩
  · intro t' ht'
    rw [List.mem_map] at ht'
    obtain ⟨t, ht, rfl⟩ := ht'
    rw [gas_volume_eq,
      gasVolumeVal_withVolumeFn t _ (hvalid t ht).1 (hvalid t ht).2]
  · have hn : ((tanks.length : ℕ) : ℚ) ≠ 0 :=
      Nat.cast_ne_zero.mpr (fun h0 => hne (List.length_eq_zero.mp h0))
    have hall : ∀ x ∈ (tanks.map (fun t =>
        withVolumeFn t (total / (tanks.length : ℚ)))).map gasVolumeVal,
        x = total / (tanks.length : ℚ) := by
      intro x hx
      rw [List.mem_map] at hx
      obtain ⟨t', ht', rfl⟩ := hx
      rw [List.mem_map] at ht'
      obtain ⟨t, ht, rfl⟩ := ht'
      exact gasVolumeVal_withVolumeFn t _ (hvalid t ht).1 (hvalid t ht).2
    rw [List.eq_replicate_length.mpr hall, List.sum_replicate]
    have hlen' : ((tanks.map (fun t =>
        withVolumeFn t (total / (tanks.length : ℚ)))).map gasVolumeVal).length
        = tanks.length := by
      simp
    rw [hlen', nsmul_eq_mul, mul_comm]
    exact div_mul_cancel₀ total hn

/-- C6 witness: conservation on the two-tank kit `[tank1, t50]` at total 10. -/
theorem c6_allocation_conservation_witness :
    ∃ ts : List Tank,
      divide_gas_among [tank1, t50] 10 Tank.with_volume = .ok (some ts) ∧
      (∀ t' ∈ ts, t'.gas_volume_cuft = some (10 / (([tank1, t50] : List Tank).length : ℚ))) ∧
      (ts.map gasVolumeVal).sum = 10 :=
  c6_allocation_conservation [tank1, t50] 10 (by simp) (by norm_num)
    (by norm_num [tank1, t50])

/-- C7: the bottom-tank and stop-tank partitions are disjoint, and both are
subsets of the diver's original kit. -/
theorem c7_partition_disjoint_subset (d : Diver) (depth_m : ℚ) (t : Tank) :
    (t ∈ bottomTanks d depth_m → t ∉ stopTanks d depth_m) ∧
    (t ∈ bottomTanks d depth_m ∨ t ∈ stopTanks d depth_m → t ∈ d.kit.tanks) := by
  constructor
  · intro hb hs
    rw [bottomTanks, List.mem_filter] at hb
    rw [stopTanks, List.mem_filter] at hs
    rw [Bool.and_eq_true, Bool.not_eq_true'] at hs
    have hbt := hb.2
    rw [hs.2.2] at hbt
    exact Bool.false_ne_true hbt
  · rintro (h | h)
    · rw [bottomTanks] at h
      exact (List.mem_filter.mp h).1
    · rw [stopTanks] at h
      exact (List.mem_filter.mp h).1

/-- C7 witness: the partition facts at the concrete test diver and tank. -/
theorem c7_partition_disjoint_subset_witness :
    tank1 ∉ stopTanks tyler 30.0 ∧ tank1 ∈ tyler.kit.tanks :=
  ⟨(c7_partition_disjoint_subset tyler 30.0 tank1).1
      (by rw [bottomTanks_tyler]; exact List.mem_singleton_self tank1),
   (c7_partition_disjoint_subset tyler 30.0 tank1).2
      (Or.inl (by rw [bottomTanks_tyler]; exact List.mem_singleton_self tank1))⟩

/-- C9: for a tank with positive oxygen fraction, pO2 is strictly increasing
in depth; the tank is breathable at the surface when its oxygen fraction is at
most 1.4, and beyond some threshold depth it is breathable nowhere. -/
theorem c9_breathability_monotone_threshold (t : Tank) (hpos : 0 < t.f_o2) :
    (∀ d1 d2 : ℚ, d1 < d2 → t.pO2 d1 < t.pO2 d2) ∧
    (t.f_o2 ≤ 1.4 → t.breathable_at 0 = true) ∧
    (∃ D : ℚ, ∀ depth_m : ℚ, D < depth_m → t.breathable_at depth_m = false) := by
  refine ⟨?_, ?_, ?_⟩
  · intro d1 d2 h
    unfold Tank.pO2 atmospheres
    have h10 : (1.0 : ℚ) + d1 / 10.0 < 1.0 + d2 / 10.0 := by linarith
    exact mul_lt_mul_of_pos_right h10 hpos
  · intro hle
    unfold Tank.breathable_at
    rw [decide_eq_true_eq]
    unfold Tank.pO2 atmospheres
    norm_num
    linarith
  · refine ⟨10 * (1.4 / t.f_o2 - 1), fun depth_m hD => ?_⟩
    unfold Tank.breathable_at
    rw [decide_eq_false_iff_not]
    unfold Tank.pO2 atmospheres
    intro hle
    have h1 : 1.4 / t.f_o2 < 1.0 + depth_m / 10.0 := by linarith
    have h2 : 1.4 / t.f_o2 * t.f_o2 < (1.0 + depth_m / 10.0) * t.f_o2 :=
      mul_lt_mul_of_pos_right h1 hpos
    rw [div_mul_cancel₀ _ (ne_of_gt hpos)] at h2
    linarith

/-- C9 witness: monotonicity, surface breathability and the threshold for
the concrete 50% oxygen tank. -/
theorem c9_breathability_witness :
    t50.pO2 0 < t50.pO2 1 ∧ t50.breathable_at 0 = true ∧
    ∃ D : ℚ, ∀ depth_m : ℚ, D < depth_m → t50.breathable_at depth_m = false :=
  ⟨(c9_breathability_monotone_threshold t50 (by norm_num [t50])).1 0 1 (by norm_num),
   (c9_breathability_monotone_threshold t50 (by norm_num [t50])).2.1 (by norm_num [t50]),
   (c9_breathability_monotone_threshold t50 (by norm_num [t50])).2.2⟩

/-- C8: `with_volume` only changes `gauge_pressure` (to the requested volume
divided by the tank factor); service pressure, capacity and both gas
fractions are copied unchanged into the new tank. -/
theorem c8_with_volume_frame (t : Tank) (v : ℚ) :
    ∃ t' : Tank, t.with_volume v = some t' ∧
      t'.service_pressure = t.service_pressure ∧
      t'.capacity_cuft = t.capacity_cuft ∧
      t'.f_o2 = t.f_o2 ∧
      t'.f_n2 = t.f_n2 ∧
      t'.gauge_pressure = v / tankFactorVal t :=
  ⟨withVolumeFn t v, with_volume_eq t v, rfl, rfl, rfl, rfl, rfl⟩

/-- C10: the `u16` to `f64` conversion is infallible, so `tank_factor`,
`gas_volume_cuft`, `with_volume` and `add_volume` always succeed — the
`ConversionFailure` branch originating in `Tank` is unreachable. -/
theorem c10_tank_conversions_infallible (t : Tank) (v : ℚ) :
    t.tank_factor = some (tankFactorVal t) ∧
    t.gas_volume_cuft = some (gasVolumeVal t) ∧
    t.with_volume v = some (withVolumeFn t v) ∧
    t.add_volume v = some (addVolumeFn t v) :=
  ⟨rfl, rfl, rfl, rfl⟩

end GasPlanner
